import Mathlib

/-!
Shallow embedding of the TelloPy example client
(`tellopy/examples/keyboard_and_video.py` and `tellopy/examples/settings.py`):
the keyboard command dispatcher, the recording toggle state machine, the
scale-and-center video blit arithmetic, and the main event loop's
exit/shutdown paths.

Machine conventions:
- Python `datetime.datetime.now()` is modelled as an explicit `DTime` value
  threaded to the functions that read the clock.
- Calls on the external drone object, `pygame` display calls and `print`
  statements are recorded as an effect trace (`Eff`), in program order.
- A Python exception is an `Except.error` carrying the exception text.
-/

set_option autoImplicit false

namespace Tellopy

/-- Components of a wall-clock timestamp, as consumed by `strftime`. -/
structure DTime where
  year : ℕ
  month : ℕ
  day : ℕ
  hour : ℕ
  minute : ℕ
  second : ℕ
  deriving DecidableEq, Repr

/-- Zero-pad a number to two digits, as `strftime` does for `%m %d %H %M %S`. -/
def pad2 (n : ℕ) : String :=
  if n < 10 then "0" ++ toString n else toString n

/-- Zero-pad a number to four digits, as `strftime` does for `%Y`. -/
def pad4 (n : ℕ) : String :=
  if n < 10 then "000" ++ toString n
  else if n < 100 then "00" ++ toString n
  else if n < 1000 then "0" ++ toString n
  else toString n

/-- settings.py: `VID_FMT = os.getenv('HOME') + '/Pictures/tello-%Y-%m-%d_%H%M%S.mp4'`
(the strftime pattern, before expansion). -/
def VID_FMT (home : String) : String :=
  home ++ "/Pictures/tello-%Y-%m-%d_%H%M%S.mp4"

/-- `datetime.datetime.now().strftime(settings.VID_FMT)`: the video filename
produced by expanding the `VID_FMT` pattern at timestamp `t`. -/
def vidFilename (home : String) (t : DTime) : String :=
  home ++ "/Pictures/tello-" ++ pad4 t.year ++ "-" ++ pad2 t.month ++ "-" ++
    pad2 t.day ++ "_" ++ pad2 t.hour ++ pad2 t.minute ++ pad2 t.second ++ ".mp4"

/-- Calls made on the external drone object. -/
inductive DroneCmd where
  | forward (n : ℕ)
  | backward (n : ℕ)
  | left (n : ℕ)
  | right (n : ℕ)
  | up (n : ℕ)
  | down (n : ℕ)
  | counter_clockwise (n : ℕ)
  | clockwise (n : ℕ)
  | takeoff
  | land
  | palm_land
  | take_picture
  | set_video_mode (b : Bool)
  | quit
  deriving DecidableEq, Repr

/-- Observable effects of the client code, in program order. -/
inductive Eff where
  /-- a method call on the drone object -/
  | cmd (c : DroneCmd)
  /-- `status_print` / `pygame.display.set_caption` -/
  | caption (s : String)
  /-- `pygame.display.get_surface().fill((0,0,0))` -/
  | fill
  /-- `pygame.display.flip()` -/
  | flip
  /-- `blitScaled(pygame.display.get_surface(), help_screen)` -/
  | blitHelp
  /-- `print(...)` to stdout -/
  | stdout (s : String)
  /-- `video_recorder.close()` on the open recorder for file `f` -/
  | closeRec (f : String)
  /-- `av.open(f, 'w')` performed by the video thread -/
  | openRec (f : String)
  /-- `traceback.print_exception(*sys.exc_info())` -/
  | traceback (msg : String)
  deriving DecidableEq, Repr

/-- The module-level `video_recorder` global: `None`, a `str` holding the
pending target filename (set by `toggle_recording`, consumed by the video
thread), or an opened `av` output container (identified here by its target
filename). -/
inductive VidState where
  | none
  | pending (f : String)
  | recorder (f : String)
  deriving DecidableEq, Repr

/-- Python truthiness of the `video_recorder` global: `None` is falsy, a
string is truthy iff nonempty, an opened container object is truthy. -/
def VidState.truthy : VidState → Bool
  | .none => false
  | .pending f => !(f == "")
  | .recorder _ => true

/-- The mutable module-level client state touched by the handlers:
`video_recorder`, `help_mode`, and the drone's `zoom` attribute
(read and flipped by `toggle_zoom`). -/
structure GState where
  video_recorder : VidState
  help_mode : Bool
  zoom : Bool
  deriving DecidableEq, Repr

/-- keyboard_and_video.py `toggle_recording(drone, speed)`.
On `speed == 0` (key release) it returns at once.  Otherwise, if
`video_recorder` is truthy it calls `video_recorder.close()` — which raises
`AttributeError` when the global still holds the pending filename *string* —
prints `Video saved` and clears the global; if falsy it stores the
timestamped target filename for the video thread to open. -/
def toggle_recording (st : GState) (speed : ℕ) (home : String) (now : DTime) :
    Except String (GState × List Eff) :=
  if speed = 0 then .ok (st, [])
  else
    match st.video_recorder with
    | .recorder f =>
        .ok ({ st with video_recorder := .none },
             [.closeRec f, .caption "Video saved"])
    | .pending f =>
        if f = "" then
          .ok ({ st with video_recorder := .pending (vidFilename home now) },
               [.caption ("Recording video to " ++ vidFilename home now)])
        else
          .error "AttributeError: str object has no attribute close"
    | .none =>
        .ok ({ st with video_recorder := .pending (vidFilename home now) },
             [.caption ("Recording video to " ++ vidFilename home now)])

/-- keyboard_and_video.py `take_picture(drone, speed)`. -/
def take_picture (st : GState) (speed : ℕ) : GState × List Eff :=
  if speed = 0 then (st, []) else (st, [.cmd .take_picture])

/-- keyboard_and_video.py `palm_land(drone, speed)`. -/
def palm_land (st : GState) (speed : ℕ) : GState × List Eff :=
  if speed = 0 then (st, []) else (st, [.cmd .palm_land])

/-- keyboard_and_video.py `toggle_zoom(drone, speed)`: on press it calls
`drone.set_video_mode(not drone.zoom)` (which flips the drone's `zoom`
attribute), clears the surface and flips the display. -/
def toggle_zoom (st : GState) (speed : ℕ) : GState × List Eff :=
  if speed = 0 then (st, [])
  else ({ st with zoom := !st.zoom },
        [.cmd (.set_video_mode (!st.zoom)), .fill, .flip])

/-- keyboard_and_video.py `toggle_help(drone, speed)`. -/
def toggle_help (st : GState) (speed : ℕ) : GState × List Eff :=
  if speed = 0 then ({ st with help_mode := false }, [.fill, .flip])
  else ({ st with help_mode := true }, [.blitHelp, .flip])

/-- The distinct non-string values stored in the `controls` dict: the arrow
lambdas (speed doubled), the `tab`/`backspace` lambdas (which ignore the
`speed` argument entirely), and the named handler functions. -/
inductive HandlerFn where
  | arrowCCW
  | arrowCW
  | arrowUp
  | arrowDown
  | doTakeoff
  | doLand
  | hPalmLand
  | hToggleRecording
  | hToggleZoom
  | hTakePicture
  | hToggleHelp
  deriving DecidableEq, Repr

/-- A value of the `controls` dict: either a command-name string (dispatched
via `getattr(drone, name)(speed)`) or a function. -/
inductive KeyHandler where
  | name (s : String)
  | fn (f : HandlerFn)
  deriving DecidableEq, Repr

/-- keyboard_and_video.py `controls`: key name to handler. -/
def controls : List (String × KeyHandler) :=
  [("w", .name "forward"),
   ("s", .name "backward"),
   ("a", .name "left"),
   ("d", .name "right"),
   ("space", .name "up"),
   ("left shift", .name "down"),
   ("right shift", .name "down"),
   ("q", .name "counter_clockwise"),
   ("e", .name "clockwise"),
   ("left", .fn .arrowCCW),
   ("right", .fn .arrowCW),
   ("up", .fn .arrowUp),
   ("down", .fn .arrowDown),
   ("tab", .fn .doTakeoff),
   ("backspace", .fn .doLand),
   ("p", .fn .hPalmLand),
   ("r", .fn .hToggleRecording),
   ("z", .fn .hToggleZoom),
   ("enter", .fn .hTakePicture),
   ("return", .fn .hTakePicture),
   ("h", .fn .hToggleHelp)]

/-- The dict membership test / lookup `controls[keyname]`. -/
def lookupControl (k : String) : Option KeyHandler :=
  (controls.find? (fun p => p.1 = k)).map Prod.snd

/-- `getattr(drone, key_handler)(speed)`: resolve a command-name string to a
drone method and call it with `speed`; an unknown name raises
`AttributeError`. -/
def droneMethod (s : String) (speed : ℕ) : Except String DroneCmd :=
  if s = "forward" then .ok (.forward speed)
  else if s = "backward" then .ok (.backward speed)
  else if s = "left" then .ok (.left speed)
  else if s = "right" then .ok (.right speed)
  else if s = "up" then .ok (.up speed)
  else if s = "down" then .ok (.down speed)
  else if s = "counter_clockwise" then .ok (.counter_clockwise speed)
  else if s = "clockwise" then .ok (.clockwise speed)
  else .error ("AttributeError: " ++ s)

/-- Invoke a `controls` entry the way `main` does: a string entry becomes
`getattr(drone, name)(speed)`, a function entry is called as
`key_handler(drone, speed)`. -/
def applyHandler (h : KeyHandler) (st : GState) (speed : ℕ) (home : String)
    (now : DTime) : Except String (GState × List Eff) :=
  match h with
  | .name s => (droneMethod s speed).map (fun c => (st, [.cmd c]))
  | .fn .arrowCCW => .ok (st, [.cmd (.counter_clockwise (speed * 2))])
  | .fn .arrowCW => .ok (st, [.cmd (.clockwise (speed * 2))])
  | .fn .arrowUp => .ok (st, [.cmd (.up (speed * 2))])
  | .fn .arrowDown => .ok (st, [.cmd (.down (speed * 2))])
  | .fn .doTakeoff => .ok (st, [.cmd .takeoff])
  | .fn .doLand => .ok (st, [.cmd .land])
  | .fn .hPalmLand => .ok (palm_land st speed)
  | .fn .hToggleRecording => toggle_recording st speed home now
  | .fn .hToggleZoom => .ok (toggle_zoom st speed)
  | .fn .hTakePicture => .ok (take_picture st speed)
  | .fn .hToggleHelp => .ok (toggle_help st speed)

/-- One pygame event as seen by the event loop, plus `fault`, standing for an
exception raised by any external call made while handling events (drone
library, display, decoder): the `try` block wraps the whole loop body. -/
inductive KeyEvent where
  | down (keyname : String)
  | up (keyname : String)
  | fault (msg : String)
  deriving DecidableEq, Repr

/-- Result of handling one event inside the `try` block. -/
inductive StepRes where
  | ok (st : GState) (effs : List Eff)
  /-- `os._exit(0)`: immediate process termination, `finally` skipped -/
  | exited (effs : List Eff)
  /-- an exception escaped the loop body -/
  | raised (effs : List Eff) (msg : String)
  deriving DecidableEq, Repr

/-- The effect trace of a step result. -/
def StepRes.effs : StepRes → List Eff
  | .ok _ e => e
  | .exited e => e
  | .raised e _ => e

/-- The event-dispatch body of `main`'s loop (lines 282–305): on KEYDOWN
print `+keyname`, special-case `escape` (`drone.quit(); os._exit(0)`), then
look the key up in `controls` and call the handler with the current `speed`;
on KEYUP print `-keyname` and call the handler with `0`; keys absent from
`controls` fall through. -/
def handleEvent (st : GState) (speed : ℕ) (home : String) (now : DTime) :
    KeyEvent → StepRes
  | .down k =>
      let pr := Eff.stdout ("+" ++ k)
      if k = "escape" then .exited [pr, .cmd .quit]
      else
        match lookupControl k with
        | some h =>
            match applyHandler h st speed home now with
            | .ok (st', effs) => .ok st' (pr :: effs)
            | .error m => .raised [pr] m
        | Option.none => .ok st [pr]
  | .up k =>
      let pr := Eff.stdout ("-" ++ k)
      match lookupControl k with
      | some h =>
          match applyHandler h st 0 home now with
          | .ok (st', effs) => .ok st' (pr :: effs)
          | .error m => .raised [pr] m
      | Option.none => .ok st [pr]
  | .fault m => .raised [] m

/-- How `main` exits. -/
inductive MainExit where
  /-- `os._exit(0)`: immediate termination, `finally` block skipped -/
  | immediateExit (code : ℕ)
  /-- the shutdown path reached through the `finally` block (`exit(1)`;
  an exception escaping the `finally` block also ends the process with
  status 1) -/
  | shutdownExit (code : ℕ)
  deriving DecidableEq, Repr

/-- The `finally` block of `main` (lines 309–314): print the shutdown notice,
close the recording when `video_recorder` is truthy by calling
`toggle_recording(drone, 1)`, then `drone.quit()` and `exit(1)`.  The `Bool`
records whether the block ran to completion (`toggle_recording` itself can
raise, in which case `drone.quit()` is never reached). -/
def finalize (st : GState) (home : String) (now : DTime) : List Eff × Bool :=
  let pr := Eff.stdout "Shutting down connection to drone..."
  if st.video_recorder.truthy then
    match toggle_recording st 1 home now with
    | .ok (_, effs) => (pr :: (effs ++ [.cmd .quit]), true)
    | .error _ => ([pr], false)
  else ([pr, .cmd .quit], true)

/-- The `try/except/finally` event loop of `main` over a finite burst of
events.  A result of `Option.none` in the third component means the loop is
still running (the real loop is `while 1`).  `os._exit(0)` bypasses the
`finally` block; an exception is caught once at top level, its traceback
printed, and the `finally` shutdown path runs, ending with status 1. -/
def runLoop (speed : ℕ) (home : String) (now : DTime) :
    GState → List KeyEvent → GState × List Eff × Option MainExit
  | st, [] => (st, [], Option.none)
  | st, e :: rest =>
      match handleEvent st speed home now e with
      | .ok st' effs =>
          let r := runLoop speed home now st' rest
          (r.1, effs ++ r.2.1, r.2.2)
      | .exited effs => (st, effs, some (.immediateExit 0))
      | .raised effs m =>
          (st, effs ++ [.traceback m] ++ (finalize st home now).1,
           some (.shutdownExit 1))

/-- The recorder-opening step at the top of `videoStreamThread`'s packet
loop: `if type(video_recorder) is str: video_recorder = av.open(...)`. -/
def videoThreadRecorderStep (st : GState) : GState × List Eff :=
  match st.video_recorder with
  | .pending f => ({ st with video_recorder := .recorder f }, [.openRec f])
  | _ => (st, [])

/-- keyboard_and_video.py `aspectScale(surface, dimensions)` (lines 192–196):
`sx, sy = (dw/ow, dh/oh)` (exact division, modelled in `ℚ`), scaled size
`(int(ow*min(sx,sy)), int(oh*min(sx,sy)))`; `int()` truncates toward zero,
which on these non-negative values is the floor. -/
def aspectScale (ow oh dw dh : ℕ) : ℕ × ℕ :=
  ((⌊(ow : ℚ) * min ((dw : ℚ) / (ow : ℚ)) ((dh : ℚ) / (oh : ℚ))⌋).toNat,
   (⌊(oh : ℚ) * min ((dw : ℚ) / (ow : ℚ)) ((dh : ℚ) / (oh : ℚ))⌋).toNat)

/-- keyboard_and_video.py `blitScaled(dst, src)` (lines 198–205): the scaled
size together with the centering offsets `x = int((dst_w-src_w)/2)`,
`y = int((dst_h-src_h)/2)`.  The subtrahend never exceeds the minuend (proved
below), so natural subtraction and floor division agree with Python's
`int((a-b)/2)`. -/
def blitScaled (ow oh dw dh : ℕ) : (ℕ × ℕ) × ℕ × ℕ :=
  ((aspectScale ow oh dw dh),
   ((dw - (aspectScale ow oh dw dh).1) / 2,
    (dh - (aspectScale ow oh dw dh).2) / 2))

/-- settings.py `CONTROLS` (lines 29–66): command name to bound input
identifiers. -/
def CONTROLS : List (String × List String) :=
  [("forward", ["w", "YButton"]),
   ("backward", ["s", "AButton"]),
   ("left", ["a", "XButton"]),
   ("right", ["d", "BButton"]),
   ("up", ["space", "DPadUp"]),
   ("down", ["left shift", "right shift", "DPadDown"]),
   ("counter_clockwise", ["q", "left", "DPadLeft"]),
   ("clockwise", ["e", "right", "DPadRight"]),
   ("takeoff", ["tab", "R1"]),
   ("land", ["backspace", "L1"]),
   ("palm_land", ["p"]),
   ("record", ["r"]),
   ("zoom", ["z"]),
   ("take_picture", ["enter", "return"]),
   ("help", ["h"]),
   ("faster", ["=", "+"]),
   ("slower", ["-"]),
   ("exit", ["escape"])]

/-- Modelled from the spec: the command names for which the client defines a
press handler.  The dispatch-derivation code that inverts `settings.CONTROLS`
is not under src/ (settings.py notes the table "don't do anything in
keyboard_and_video yet"); the spec lists handlers for the continuous-motion
commands, the one-shot commands, and the stateful client commands. -/
def pressHandlerCommands : List String :=
  ["forward", "backward", "left", "right", "up", "down",
   "counter_clockwise", "clockwise",
   "takeoff", "land", "palm_land", "take_picture",
   "record", "zoom", "help", "faster", "slower", "exit"]

/-- The startup diagnostic naming the offending binding and command. -/
def diagMsg (ks : List String) (c : String) : String :=
  "fatal: no press handler for command " ++ c ++ " bound to " ++
    String.intercalate ", " ks

/-- Modelled from the spec: invert the binding table into identifier-to-command
dispatch entries, failing with a diagnostic naming the binding and the
command as soon as a command has no press handler. -/
def buildDispatch : List (String × List String) →
    Except String (List (String × String))
  | [] => .ok []
  | (c, ks) :: rest =>
      if c ∈ pressHandlerCommands then
        (buildDispatch rest).map (fun d => (ks.map fun k => (k, c)) ++ d)
      else .error (diagMsg ks c)

/-- Outcome of startup followed by the event loop. -/
inductive ProgramOutcome where
  /-- the process terminated at startup, before any input event -/
  | fatalStartup (diag : String)
  /-- startup validation passed and the loop was entered on `events` -/
  | enteredLoop (dispatch : List (String × String)) (events : List KeyEvent)
  deriving DecidableEq, Repr

/-- Modelled from the spec: derive the dispatch table at startup and only then
enter the event loop; a failed derivation terminates the process with the
diagnostic, before any input event is examined. -/
def startupThenRun (table : List (String × List String))
    (events : List KeyEvent) : ProgramOutcome :=
  match buildDispatch table with
  | .error d => .fatalStartup d
  | .ok disp => .enteredLoop disp events

/-- Modelled from the spec: the `faster` client command, the speed bound
raised by one step and clamped above at 100. -/
def fasterCmd (s : ℤ) : ℤ := min (s + 10) 100

/-- Modelled from the spec: the `slower` client command, the speed bound
lowered by one step and clamped below at the floor (0 or 10 depending on
variant; the floor is a parameter here). -/
def slowerCmd (floor : ℤ) (s : ℤ) : ℤ := max (s - 10) floor

/-- A concrete client state (recorder idle) used by closed theorems. -/
def st0 : GState := ⟨.none, false, false⟩

/-- A concrete timestamp used by closed theorems. -/
def t0 : DTime := ⟨2026, 1, 2, 3, 4, 5⟩

/-- A concrete client state with an open recorder, used by closed theorems. -/
def stR : GState := ⟨.recorder "f.mp4", false, false⟩

/-- C9: every handler that takes the speed argument as a press/release
discriminator (`toggle_recording`, `take_picture`, `palm_land`,
`toggle_zoom`) returns immediately when invoked with speed 0: it issues no
drone command, produces no effect, and leaves the client state unchanged. -/
theorem C9_release_discriminator_noop :
    ∀ (st : GState) (home : String) (now : DTime),
      toggle_recording st 0 home now = .ok (st, []) ∧
      take_picture st 0 = (st, []) ∧
      palm_land st 0 = (st, []) ∧
      toggle_zoom st 0 = (st, []) :=
  fun _ _ _ => ⟨rfl, rfl, rfl, rfl⟩

/-- C6: pressing `w` dispatches `forward` with the current speed as its
argument (so `forward(30)` at the default speed 30), and releasing `w`
dispatches `forward(0)`. -/
theorem C6_forward_key_dispatch :
    ∀ (st : GState) (speed : ℕ) (home : String) (now : DTime),
      handleEvent st speed home now (.down "w") =
        .ok st [.stdout "+w", .cmd (.forward speed)] ∧
      handleEvent st speed home now (.up "w") =
        .ok st [.stdout "-w", .cmd (.forward 0)] ∧
      handleEvent st 30 home now (.down "w") =
        .ok st [.stdout "+w", .cmd (.forward 30)] :=
  fun _ _ _ _ => ⟨rfl, rfl, rfl⟩

/-- C10: the claim that `toggle_recording` with nonzero speed never raises is
wrong at this input: with the recording state holding a pending timestamped
filename string (not yet replaced by the video thread with an opened
recorder), the stop branch calls `close()` on the string and raises
`AttributeError`. -/
theorem C10_toggle_pending_close_raises :
    toggle_recording
        ⟨.pending "/h/Pictures/tello-2026-01-02_030405.mp4", false, false⟩
        1 "/h" t0 =
      .error "AttributeError: str object has no attribute close" := rfl

/-- C2 counterexample: releasing the `tab` key is not a no-op — the KEYUP
dispatch calls the `tab` lambda with speed 0, and that lambda ignores its
speed argument, so `drone.takeoff()` is invoked a second time on key-up. -/
theorem C2_release_refires_takeoff_cex :
    handleEvent st0 30 "/h" t0 (.up "tab") =
      .ok st0 [.stdout "-tab", .cmd .takeoff] ∧
    Eff.cmd .takeoff ∈ (handleEvent st0 30 "/h" t0 (.up "tab")).effs :=
  ⟨rfl, by decide⟩

/-- C2 (amended): for palm-land and take-picture the drone call is issued
exactly once on key press and key release performs no drone action; for
takeoff and land the bound lambdas ignore the speed discriminator, so the
drone call is issued on key press and issued again on key release. -/
theorem C2_oneshot_press_release (st : GState) (speed : ℕ) (home : String)
    (now : DTime) (hs : speed ≠ 0) :
    handleEvent st speed home now (.down "p") =
      .ok st [.stdout "+p", .cmd .palm_land] ∧
    handleEvent st speed home now (.down "enter") =
      .ok st [.stdout "+enter", .cmd .take_picture] ∧
    handleEvent st speed home now (.down "return") =
      .ok st [.stdout "+return", .cmd .take_picture] ∧
    handleEvent st speed home now (.up "p") = .ok st [.stdout "-p"] ∧
    handleEvent st speed home now (.up "enter") = .ok st [.stdout "-enter"] ∧
    handleEvent st speed home now (.up "return") = .ok st [.stdout "-return"] ∧
    handleEvent st speed home now (.down "tab") =
      .ok st [.stdout "+tab", .cmd .takeoff] ∧
    handleEvent st speed home now (.up "tab") =
      .ok st [.stdout "-tab", .cmd .takeoff] ∧
    handleEvent st speed home now (.down "backspace") =
      .ok st [.stdout "+backspace", .cmd .land] ∧
    handleEvent st speed home now (.up "backspace") =
      .ok st [.stdout "-backspace", .cmd .land] := by
  refine ⟨?_, ?_, ?_, rfl, rfl, rfl, rfl, rfl, rfl, rfl⟩ <;>
    simp [handleEvent, lookupControl, controls, List.find?, applyHandler,
      palm_land, take_picture, hs]

/-- C2 witness. -/
theorem C2_oneshot_press_release_witness :
    (30 : ℕ) ≠ 0 ∧
    (handleEvent st0 30 "/h" t0 (.down "p") =
       .ok st0 [.stdout "+p", .cmd .palm_land] ∧
     handleEvent st0 30 "/h" t0 (.down "enter") =
       .ok st0 [.stdout "+enter", .cmd .take_picture] ∧
     handleEvent st0 30 "/h" t0 (.down "return") =
       .ok st0 [.stdout "+return", .cmd .take_picture] ∧
     handleEvent st0 30 "/h" t0 (.up "p") = .ok st0 [.stdout "-p"] ∧
     handleEvent st0 30 "/h" t0 (.up "enter") = .ok st0 [.stdout "-enter"] ∧
     handleEvent st0 30 "/h" t0 (.up "return") = .ok st0 [.stdout "-return"] ∧
     handleEvent st0 30 "/h" t0 (.down "tab") =
       .ok st0 [.stdout "+tab", .cmd .takeoff] ∧
     handleEvent st0 30 "/h" t0 (.up "tab") =
       .ok st0 [.stdout "-tab", .cmd .takeoff] ∧
     handleEvent st0 30 "/h" t0 (.down "backspace") =
       .ok st0 [.stdout "+backspace", .cmd .land] ∧
     handleEvent st0 30 "/h" t0 (.up "backspace") =
       .ok st0 [.stdout "-backspace", .cmd .land]) :=
  ⟨by decide, C2_oneshot_press_release st0 30 "/h" t0 (by decide)⟩

/-- C7 counterexample: `escape` is an input identifier that is not present in
the dispatch table (`controls`), yet its key-press is not a no-op: it stops
the drone and terminates the process. -/
theorem C7_unbound_escape_cex :
    lookupControl "escape" = Option.none ∧
    handleEvent st0 30 "/h" t0 (.down "escape") =
      .exited [.stdout "+escape", .cmd .quit] :=
  ⟨rfl, rfl⟩

/-- C7 (amended): for every input identifier not present in the dispatch
table other than `escape`, press and release dispatch run no handler, raise
no exception, change no state, and produce no output beyond the
unconditional key-event log line printed for every key; `escape`, though
absent from the table, is special-cased on press and terminates the
process. -/
theorem C7_unbound_key_noop (st : GState) (speed : ℕ) (home : String)
    (now : DTime) (k : String) (hk : lookupControl k = Option.none)
    (hesc : k ≠ "escape") :
    handleEvent st speed home now (.down k) = .ok st [.stdout ("+" ++ k)] ∧
    handleEvent st speed home now (.up k) = .ok st [.stdout ("-" ++ k)] := by
  constructor
  · simp [handleEvent, hk, hesc]
  · simp [handleEvent, hk]

/-- C7 witness. -/
theorem C7_unbound_key_noop_witness :
    lookupControl "x" = Option.none ∧ "x" ≠ "escape" ∧
    (handleEvent st0 30 "/h" t0 (.down "x") = .ok st0 [.stdout "+x"] ∧
     handleEvent st0 30 "/h" t0 (.up "x") = .ok st0 [.stdout "-x"]) :=
  ⟨rfl, by decide, C7_unbound_key_noop st0 30 "/h" t0 "x" rfl (by decide)⟩

/-- C4: the recording toggle is a two-state flip: invoked while idle it moves
the state to "recording with filename F", where F expands the configured
pattern `tello-YYYY-MM-DD_HHMMSS.mp4` at the current timestamp; invoked again
while recording it closes the recorder and returns the state to idle,
clearing the single global that holds both the handle and the filename. -/
theorem C4_recording_toggle_flip (st1 st2 : GState) (speed : ℕ)
    (home : String) (now : DTime) (f : String) (hs : speed ≠ 0)
    (h1 : st1.video_recorder = .none)
    (h2 : st2.video_recorder = .recorder f) :
    toggle_recording st1 speed home now =
      .ok ({ st1 with video_recorder := .pending (vidFilename home now) },
           [.caption ("Recording video to " ++ vidFilename home now)]) ∧
    vidFilename home now =
      home ++ "/Pictures/tello-" ++ pad4 now.year ++ "-" ++ pad2 now.month ++
        "-" ++ pad2 now.day ++ "_" ++ pad2 now.hour ++ pad2 now.minute ++
        pad2 now.second ++ ".mp4" ∧
    toggle_recording st2 speed home now =
      .ok ({ st2 with video_recorder := .none },
           [.closeRec f, .caption "Video saved"]) := by
  refine ⟨?_, rfl, ?_⟩
  · simp [toggle_recording, hs, h1]
  · simp [toggle_recording, hs, h2]

/-- C4 witness. -/
theorem C4_recording_toggle_flip_witness :
    (1 : ℕ) ≠ 0 ∧ st0.video_recorder = .none ∧
    stR.video_recorder = .recorder "f.mp4" ∧
    (toggle_recording st0 1 "/h" t0 =
       .ok ({ st0 with video_recorder := .pending (vidFilename "/h" t0) },
            [.caption ("Recording video to " ++ vidFilename "/h" t0)]) ∧
     vidFilename "/h" t0 =
       "/h" ++ "/Pictures/tello-" ++ pad4 t0.year ++ "-" ++ pad2 t0.month ++
         "-" ++ pad2 t0.day ++ "_" ++ pad2 t0.hour ++ pad2 t0.minute ++
         pad2 t0.second ++ ".mp4" ∧
     toggle_recording stR 1 "/h" t0 =
       .ok ({ stR with video_recorder := .none },
            [.closeRec "f.mp4", .caption "Video saved"])) :=
  ⟨by decide, rfl, rfl,
   C4_recording_toggle_flip st0 stR 1 "/h" t0 "f.mp4" (by decide) rfl rfl⟩

/-- C8: pressing the exit-bound key `escape` stops the drone and terminates
the process immediately with status 0, skipping the shutdown path; an
exception raised inside the main loop is caught once at top level, its
traceback printed, and the process then runs the shutdown path — closing
the active recording and stopping the drone — and exits with status 1. -/
theorem C8_exit_paths (st1 st2 : GState) (speed : ℕ) (home : String)
    (now : DTime) (rest : List KeyEvent) (m f : String)
    (h2 : st2.video_recorder = .recorder f) :
    runLoop speed home now st1 (.down "escape" :: rest) =
      (st1, [.stdout "+escape", .cmd .quit], some (.immediateExit 0)) ∧
    runLoop speed home now st2 [.fault m] =
      (st2, [.traceback m, .stdout "Shutting down connection to drone...",
             .closeRec f, .caption "Video saved", .cmd .quit],
       some (.shutdownExit 1)) := by
  constructor
  · simp [runLoop, handleEvent]
  · simp [runLoop, handleEvent, finalize, VidState.truthy, toggle_recording, h2]

/-- C8 witness. -/
theorem C8_exit_paths_witness :
    stR.video_recorder = .recorder "f.mp4" ∧
    (runLoop 30 "/h" t0 st0 [.down "escape"] =
       (st0, [.stdout "+escape", .cmd .quit], some (.immediateExit 0)) ∧
     runLoop 30 "/h" t0 stR [.fault "boom"] =
       (stR, [.traceback "boom",
              .stdout "Shutting down connection to drone...",
              .closeRec "f.mp4", .caption "Video saved", .cmd .quit],
        some (.shutdownExit 1))) :=
  ⟨rfl, C8_exit_paths st0 stR 30 "/h" t0 [] "boom" "f.mp4" rfl⟩

/-- C3: the commanded speed is bounded under repeated adjustment: starting
at or below 100, any number of `faster` invocations leaves it at most 100;
starting at or above the floor, any number of `slower` invocations leaves it
at least the floor (0 or 10 depending on variant). -/
theorem C3_speed_clamped (s f : ℤ) (n : ℕ) (hs : s ≤ 100) (hf : f ≤ s) :
    (fasterCmd)^[n] s ≤ 100 ∧ f ≤ (slowerCmd f)^[n] s := by
  constructor
  · induction n with
    | zero => simpa using hs
    | succ k ih =>
        rw [Function.iterate_succ_apply']
        exact min_le_right _ _
  · induction n with
    | zero => simpa using hf
    | succ k ih =>
        rw [Function.iterate_succ_apply']
        exact le_max_right _ _

/-- C3 witness. -/
theorem C3_speed_clamped_witness :
    (30 : ℤ) ≤ 100 ∧ (10 : ℤ) ≤ 30 ∧
    ((fasterCmd)^[12] 30 ≤ 100 ∧ (10 : ℤ) ≤ (slowerCmd 10)^[12] 30) :=
  ⟨by decide, by decide, C3_speed_clamped 30 10 12 (by decide) (by decide)⟩

/-- Propagation lemma: a binding-table entry whose command has no press
handler makes the dispatch derivation fail with a diagnostic naming an
offending binding and command. -/
theorem buildDispatch_error_of_missing :
    ∀ (table : List (String × List String)) (c : String) (ks : List String),
      (c, ks) ∈ table → c ∉ pressHandlerCommands →
      ∃ c2 ks2, c2 ∉ pressHandlerCommands ∧ (c2, ks2) ∈ table ∧
        buildDispatch table = .error (diagMsg ks2 c2) := by
  intro table
  induction table with
  | nil => intro c ks hmem _; cases hmem
  | cons hd tl ih =>
      intro c ks hmem hmiss
      obtain ⟨c0, ks0⟩ := hd
      by_cases h0 : c0 ∈ pressHandlerCommands
      · have htl : (c, ks) ∈ tl := by
          rcases List.mem_cons.mp hmem with heq | h
          · cases heq
            exact absurd h0 hmiss
          · exact h
        obtain ⟨c2, ks2, hh1, hh2, hh3⟩ := ih c ks htl hmiss
        refine ⟨c2, ks2, hh1, List.mem_cons_of_mem _ hh2, ?_⟩
        have hstep : buildDispatch ((c0, ks0) :: tl) =
            (buildDispatch tl).map (fun d => (ks0.map fun k => (k, c0)) ++ d) := by
          simp [buildDispatch, h0]
        rw [hstep, hh3]
        rfl
      · exact ⟨c0, ks0, h0, List.mem_cons_self _ _, by simp [buildDispatch, h0]⟩

/-- C1: the startup derivation of the dispatch table checks that every
command named in the binding table has a press handler: the current
`settings.CONTROLS` passes the check and the loop is entered, while any table
containing a command without a handler makes the process terminate before
any input event is processed, with a diagnostic naming an offending binding
and command. -/
theorem C1_startup_validation (table : List (String × List String))
    (c : String) (ks : List String) (evs : List KeyEvent)
    (hmem : (c, ks) ∈ table) (hmiss : c ∉ pressHandlerCommands) :
    (∃ d, ∀ evs2 : List KeyEvent,
        startupThenRun CONTROLS evs2 = .enteredLoop d evs2) ∧
    ∃ c2 ks2, c2 ∉ pressHandlerCommands ∧ (c2, ks2) ∈ table ∧
      startupThenRun table evs = .fatalStartup (diagMsg ks2 c2) := by
  constructor
  · exact ⟨_, fun _ => rfl⟩
  · obtain ⟨c2, ks2, hh1, hh2, hh3⟩ :=
      buildDispatch_error_of_missing table c ks hmem hmiss
    exact ⟨c2, ks2, hh1, hh2, by simp [startupThenRun, hh3]⟩

/-- C1 witness. -/
theorem C1_startup_validation_witness :
    ("warp", ["x"]) ∈ ([("warp", ["x"])] : List (String × List String)) ∧
    "warp" ∉ pressHandlerCommands ∧
    ((∃ d, ∀ evs2 : List KeyEvent,
         startupThenRun CONTROLS evs2 = .enteredLoop d evs2) ∧
     ∃ c2 ks2, c2 ∉ pressHandlerCommands ∧
       (c2, ks2) ∈ ([("warp", ["x"])] : List (String × List String)) ∧
       startupThenRun [("warp", ["x"])] [] = .fatalStartup (diagMsg ks2 c2)) :=
  ⟨by decide, by decide,
   C1_startup_validation [("warp", ["x"])] "warp" ["x"] [] (by decide) (by decide)⟩

/-- The scaled width never exceeds the destination width (and symmetrically
for heights): `ow * min(dw/ow, dh/oh) ≤ ow * (dw/ow) = dw`. -/
theorem aspectScale_le (ow oh dw dh : ℕ) (how : 0 < ow) (hoh : 0 < oh) :
    (aspectScale ow oh dw dh).1 ≤ dw ∧ (aspectScale ow oh dw dh).2 ≤ dh := by
  have how' : ((ow : ℚ)) ≠ 0 := Nat.cast_ne_zero.mpr how.ne'
  have hoh' : ((oh : ℚ)) ≠ 0 := Nat.cast_ne_zero.mpr hoh.ne'
  constructor
  · show (⌊(ow : ℚ) * min ((dw : ℚ) / (ow : ℚ)) ((dh : ℚ) / (oh : ℚ))⌋).toNat ≤ dw
    rw [Int.toNat_le]
    have hle : (ow : ℚ) * min ((dw : ℚ) / (ow : ℚ)) ((dh : ℚ) / (oh : ℚ)) ≤ dw := by
      calc (ow : ℚ) * min ((dw : ℚ) / (ow : ℚ)) ((dh : ℚ) / (oh : ℚ))
          ≤ (ow : ℚ) * ((dw : ℚ) / (ow : ℚ)) :=
            mul_le_mul_of_nonneg_left (min_le_left _ _) (by positivity)
        _ = dw := by field_simp
    calc ⌊(ow : ℚ) * min ((dw : ℚ) / (ow : ℚ)) ((dh : ℚ) / (oh : ℚ))⌋
        ≤ ⌊(dw : ℚ)⌋ := Int.floor_le_floor hle
      _ = (dw : ℤ) := Int.floor_natCast dw
  · show (⌊(oh : ℚ) * min ((dw : ℚ) / (ow : ℚ)) ((dh : ℚ) / (oh : ℚ))⌋).toNat ≤ dh
    rw [Int.toNat_le]
    have hle : (oh : ℚ) * min ((dw : ℚ) / (ow : ℚ)) ((dh : ℚ) / (oh : ℚ)) ≤ dh := by
      calc (oh : ℚ) * min ((dw : ℚ) / (ow : ℚ)) ((dh : ℚ) / (oh : ℚ))
          ≤ (oh : ℚ) * ((dh : ℚ) / (oh : ℚ)) :=
            mul_le_mul_of_nonneg_left (min_le_right _ _) (by positivity)
        _ = dh := by field_simp
    calc ⌊(oh : ℚ) * min ((dw : ℚ) / (ow : ℚ)) ((dh : ℚ) / (oh : ℚ))⌋
        ≤ ⌊(dh : ℚ)⌋ := Int.floor_le_floor hle
      _ = (dh : ℤ) := Int.floor_natCast dh

/-- C5: the scale-and-center operation applies the single factor
`min(dw/ow, dh/oh)` to both axes, so neither scaled dimension exceeds the
destination, and the centering offsets `x = int((dw-sw)/2)`,
`y = int((dh-sh)/2)` satisfy `x + sw ≤ dw` and `y + sh ≤ dh` (offsets are
non-negative by construction in `ℕ`; the subtractions do not truncate since
`sw ≤ dw` and `sh ≤ dh`). -/
theorem C5_scale_center_bounds (ow oh dw dh : ℕ) (how : 0 < ow)
    (hoh : 0 < oh) :
    (aspectScale ow oh dw dh).1 ≤ dw ∧ (aspectScale ow oh dw dh).2 ≤ dh ∧
    (blitScaled ow oh dw dh).1 = aspectScale ow oh dw dh ∧
    (blitScaled ow oh dw dh).2.1 + (aspectScale ow oh dw dh).1 ≤ dw ∧
    (blitScaled ow oh dw dh).2.2 + (aspectScale ow oh dw dh).2 ≤ dh := by
  obtain ⟨h1, h2⟩ := aspectScale_le ow oh dw dh how hoh
  refine ⟨h1, h2, rfl, ?_, ?_⟩
  · show (dw - (aspectScale ow oh dw dh).1) / 2 + (aspectScale ow oh dw dh).1 ≤ dw
    omega
  · show (dh - (aspectScale ow oh dw dh).2) / 2 + (aspectScale ow oh dw dh).2 ≤ dh
    omega

/-- C5 witness. -/
theorem C5_scale_center_bounds_witness :
    0 < 1280 ∧ 0 < 720 ∧
    ((aspectScale 1280 720 952 720).1 ≤ 952 ∧
     (aspectScale 1280 720 952 720).2 ≤ 720 ∧
     (blitScaled 1280 720 952 720).1 = aspectScale 1280 720 952 720 ∧
     (blitScaled 1280 720 952 720).2.1 + (aspectScale 1280 720 952 720).1 ≤ 952 ∧
     (blitScaled 1280 720 952 720).2.2 + (aspectScale 1280 720 952 720).2 ≤ 720) :=
  ⟨by decide, by decide,
   C5_scale_center_bounds 1280 720 952 720 (by decide) (by decide)⟩

end Tellopy
